import Mathlib

/-!
# Chippie CHIP-8 emulator core: a shallow embedding

This file embeds the CHIP-8 emulator core of the `chippie` repository
(crates/chippie-emulator: `cpu.rs`, `instruction.rs`, `registers.rs`, and the
`ram.rs`/`stack.rs` containers) and proves properties of the embedded code.

Modelling conventions:
* Machine integers are `Nat` with explicit `% 2^w` where the Rust code wraps.
* A Rust panic (an explicit `panic!`, an out-of-bounds slice index, or a failed
  `assert!`) is modelled as `Option.none`; fallible operations return `Option`.
* Plain arithmetic (`+`, `-`, `*`, `<<`) that overflows is modelled with the
  release-profile two's-complement wrap (`% 256` / `% 65536`), matching the
  build that ships; explicit `panic!` and index-out-of-bounds aborts, which
  terminate the process in every profile, are `none`.
* The ChaCha8 generator is modelled abstractly: a stream parameter
  `Nat → Nat → Nat` (seed, position ↦ byte) together with a seed and a position
  stored in the CPU state; `Cpu::new` hardcodes seed 2 and position 0 exactly as
  `ChaCha8Rng::seed_from_u64(2)` does.
-/

/-- The 32×64 monochrome framebuffer `[[bool; 64]; 32]`, indexed row-first. -/
def Frame : Type := Nat → Nat → Bool

/-- `registers.rs`: 16 general 8-bit registers, the 16-bit index register, and
the two 8-bit timers. The register file is modelled as a total function
(indices ≥ 16 are unreachable because decode masks indices to one nibble). -/
structure Registers where
  reg : Nat → Nat
  vindex : Nat
  delay_timer : Nat
  sound_timer : Nat

/-- `Registers::default()`: everything zeroed. -/
def Registers.default : Registers :=
  { reg := fun _ => 0, vindex := 0, delay_timer := 0, sound_timer := 0 }

def Registers.get_register (r : Registers) (i : Nat) : Nat := r.reg i

def Registers.set_register (r : Registers) (i v : Nat) : Registers :=
  { r with reg := fun j => if j = i then v else r.reg j }

def Registers.set_index_register (r : Registers) (v : Nat) : Registers :=
  { r with vindex := v }

def Registers.get_index_register (r : Registers) : Nat := r.vindex

def Registers.set_sound_timer (r : Registers) (v : Nat) : Registers :=
  { r with sound_timer := v }

def Registers.get_sound_timer (r : Registers) : Nat := r.sound_timer

def Registers.set_delay_timer (r : Registers) (v : Nat) : Registers :=
  { r with delay_timer := v }

def Registers.get_delay_timer (r : Registers) : Nat := r.delay_timer

/-- `Registers::decrement_sound_timer`: decrement by one only when nonzero. -/
def Registers.decrement_sound_timer (r : Registers) : Registers :=
  if r.sound_timer > 0 then { r with sound_timer := r.sound_timer - 1 } else r

/-- `Registers::decrement_delay_timer`: decrement by one only when nonzero. -/
def Registers.decrement_delay_timer (r : Registers) : Registers :=
  if r.delay_timer > 0 then { r with delay_timer := r.delay_timer - 1 } else r

/-- `stack.rs`: 16 sixteen-bit return addresses. -/
structure Stack where
  values : Nat → Nat

/-- `Stack::default` / `Stack::new`: zeroed. -/
def Stack.default : Stack := { values := fun _ => 0 }

/-- `Stack::get`: `self.values[idx]`, panicking (`none`) when `idx ≥ 16`. -/
def Stack.get (s : Stack) (idx : Nat) : Option Nat :=
  if idx < 16 then some (s.values idx) else none

/-- `Stack::set`: `self.values[idx] = value`, panicking when `idx ≥ 16`. -/
def Stack.set (s : Stack) (idx v : Nat) : Option Stack :=
  if idx < 16 then some { values := fun j => if j = idx then v else s.values j }
  else none

/-- `RAM_SIZE` from `constants.rs`. -/
def RAM_SIZE : Nat := 4096

/-- `DISPLAY_WIDTH` from `constants.rs`. -/
def DISPLAY_WIDTH : Nat := 64

/-- `DISPLAY_HEIGHT` from `constants.rs`. -/
def DISPLAY_HEIGHT : Nat := 32

/-- `ROM_START_ADDRESS` from `constants.rs`. -/
def ROM_START_ADDRESS : Nat := 0x200

/-- `ram.rs`: the 4096-byte address space. -/
structure Ram where
  bytes : Nat → Nat

/-- The built-in font table (`ram.rs`), 16 glyphs of 5 bytes each. -/
def fontset : List Nat :=
  [0xF0, 0x90, 0x90, 0x90, 0xF0,
   0x20, 0x60, 0x20, 0x20, 0x70,
   0xF0, 0x10, 0xF0, 0x80, 0xF0,
   0xF0, 0x10, 0xF0, 0x10, 0xF0,
   0x90, 0x90, 0xF0, 0x10, 0x10,
   0xF0, 0x80, 0xF0, 0x10, 0xF0,
   0xF0, 0x80, 0xF0, 0x90, 0xF0,
   0xF0, 0x10, 0x20, 0x40, 0x40,
   0xF0, 0x90, 0xF0, 0x90, 0xF0,
   0xF0, 0x90, 0xF0, 0x10, 0xF0,
   0xF0, 0x90, 0xF0, 0x90, 0x90,
   0xE0, 0x90, 0xE0, 0x90, 0xE0,
   0xF0, 0x80, 0x80, 0x80, 0xF0,
   0xE0, 0x90, 0x90, 0x90, 0xE0,
   0xF0, 0x80, 0xF0, 0x80, 0xF0,
   0xF0, 0x80, 0xF0, 0x80, 0x80]

/-- `Ram::with_fonts`: zeroed memory with the 80-byte fontset at address 0. -/
def Ram.with_fonts : Ram :=
  { bytes := fun i => if i < 80 then fontset.getD i 0 else 0 }

/-- `Ram::set`: `self.bytes[index] = value`, panicking (`none`) at or beyond the
4096-byte bound. -/
def Ram.set (m : Ram) (index v : Nat) : Option Ram :=
  if index < RAM_SIZE then
    some { bytes := fun j => if j = index then v else m.bytes j }
  else none

/-- Byte read `self.bytes[index]` (`Ram::get_byte`), panicking out of bounds. -/
def Ram.get_byte (m : Ram) (index : Nat) : Option Nat :=
  if index < RAM_SIZE then some (m.bytes index) else none

/-- Big-endian opcode fetch `(bytes[i] as u16) << 8 | bytes[i+1] as u16`
(`Ram::get_opcode`, named `get` in the historical `ram.rs` snapshot).
The `index + 1` is a u16 add, hence the `% 65536`; either slice index out of
bounds panics. -/
def Ram.get_opcode (m : Ram) (index : Nat) : Option Nat :=
  if index < RAM_SIZE ∧ (index + 1) % 65536 < RAM_SIZE then
    some ((m.bytes index <<< 8) ||| m.bytes ((index + 1) % 65536))
  else none

/-- `instruction.rs`: the tagged instruction set. -/
inductive Instruction where
  | Noop
  | ClearScreen
  | ReturnFromSubroutine
  | Jump (nnn : Nat)
  | CallSubroutineAtNNN (nnn : Nat)
  | LoadRegisterX (x kk : Nat)
  | AddToRegisterX (x kk : Nat)
  | LoadXOrYinX (x y : Nat)
  | LoadXAndYInX (x y : Nat)
  | LoadXXorYInX (x y : Nat)
  | AddYToX (x y : Nat)
  | SubYFromX (x y : Nat)
  | ShiftXRight1 (x : Nat)
  | ShiftXLeft1 (x : Nat)
  | SubXFromY (x y : Nat)
  | LoadRegisterXIntoY (x y : Nat)
  | SetIndexRegister (nnn : Nat)
  | JumpToAddressPlusV0 (nnn : Nat)
  | SkipNextInstructionIfXIsKK (x kk : Nat)
  | SkipNextInstructionIfXIsNotKK (x kk : Nat)
  | SkipNextInstructionIfXIsY (x y : Nat)
  | SkipNextInstructionIfXIsNotY (x y : Nat)
  | SetXToRandom (x kk : Nat)
  | Display (x y n : Nat)
  | SkipIfVxNotPressed (x : Nat)
  | SkipIfVxPressed (x : Nat)
  | WaitForKeyPressed (x : Nat)
  | SetXToDelayTimer (x : Nat)
  | SetDelayTimerToX (x : Nat)
  | SetSoundTimerToX (x : Nat)
  | AddXtoI (x : Nat)
  | SetIToSpriteX (x : Nat)
  | LoadBCDOfX (x : Nat)
  | Write0ThroughX (x : Nat)
  | Load0ThroughX (x : Nat)
  deriving DecidableEq

/-- `Instruction::get_nibble`: the `nth` nibble from the top of a 16-bit opcode. -/
def Instruction.get_nibble (opcode nth : Nat) : Nat :=
  (opcode >>> (12 - 4 * nth)) &&& 0xf

/-- `Instruction::last_byte`: the low byte of an opcode. -/
def Instruction.last_byte (opcode : Nat) : Nat := opcode &&& 0xff

/-- `Instruction::oxxx`: the low 12 bits of an opcode. -/
def Instruction.oxxx (opcode : Nat) : Nat := opcode &&& 0xfff

/-- `Instruction::new`: the opcode → instruction decoder.  The `panic!` arms
for unmapped opcodes within dispatch groups 0x8, 0xE and 0xF are `none`. -/
def Instruction.new (opcode : Nat) : Option Instruction :=
  match get_nibble opcode 0 with
  | 0x0 =>
    match last_byte opcode with
    | 0xE0 => some .ClearScreen
    | 0xEE => some .ReturnFromSubroutine
    | _ => some .Noop
  | 0x1 => some (.Jump (oxxx opcode))
  | 0x2 => some (.CallSubroutineAtNNN (oxxx opcode))
  | 0x3 => some (.SkipNextInstructionIfXIsKK (get_nibble opcode 1) (last_byte opcode))
  | 0x4 => some (.SkipNextInstructionIfXIsNotKK (get_nibble opcode 1) (last_byte opcode))
  | 0x5 => some (.SkipNextInstructionIfXIsY (get_nibble opcode 1) (get_nibble opcode 2))
  | 0x6 => some (.LoadRegisterX (get_nibble opcode 1) (last_byte opcode))
  | 0x7 => some (.AddToRegisterX (get_nibble opcode 1) (last_byte opcode))
  | 0x8 =>
    match get_nibble opcode 3 with
    | 0x0 => some (.LoadRegisterXIntoY (get_nibble opcode 1) (get_nibble opcode 2))
    | 0x1 => some (.LoadXOrYinX (get_nibble opcode 1) (get_nibble opcode 2))
    | 0x2 => some (.LoadXAndYInX (get_nibble opcode 1) (get_nibble opcode 2))
    | 0x3 => some (.LoadXXorYInX (get_nibble opcode 1) (get_nibble opcode 2))
    | 0x4 => some (.AddYToX (get_nibble opcode 1) (get_nibble opcode 2))
    | 0x5 => some (.SubYFromX (get_nibble opcode 1) (get_nibble opcode 2))
    | 0x6 => some (.ShiftXRight1 (get_nibble opcode 1))
    | 0x7 => some (.SubXFromY (get_nibble opcode 1) (get_nibble opcode 2))
    | 0xE => some (.ShiftXLeft1 (get_nibble opcode 1))
    | _ => none
  | 0x9 => some (.SkipNextInstructionIfXIsNotY (get_nibble opcode 1) (get_nibble opcode 2))
  | 0xA => some (.SetIndexRegister (oxxx opcode))
  | 0xB => some (.JumpToAddressPlusV0 (oxxx opcode))
  | 0xC => some (.SetXToRandom (get_nibble opcode 1) (last_byte opcode))
  | 0xD => some (.Display (get_nibble opcode 1) (get_nibble opcode 2) (get_nibble opcode 3))
  | 0xE =>
    match last_byte opcode with
    | 0xA1 => some (.SkipIfVxNotPressed (get_nibble opcode 1))
    | 0x9E => some (.SkipIfVxPressed (get_nibble opcode 1))
    | _ => none
  | 0xF =>
    match last_byte opcode with
    | 0x0A => some (.WaitForKeyPressed (get_nibble opcode 1))
    | 0x07 => some (.SetXToDelayTimer (get_nibble opcode 1))
    | 0x15 => some (.SetDelayTimerToX (get_nibble opcode 1))
    | 0x18 => some (.SetSoundTimerToX (get_nibble opcode 1))
    | 0x1E => some (.AddXtoI (get_nibble opcode 1))
    | 0x29 => some (.SetIToSpriteX (get_nibble opcode 1))
    | 0x33 => some (.LoadBCDOfX (get_nibble opcode 1))
    | 0x55 => some (.Write0ThroughX (get_nibble opcode 1))
    | 0x65 => some (.Load0ThroughX (get_nibble opcode 1))
    | _ => none
  | _ => none

/-- `cpu.rs`: configuration of quirks, all off by default and never consulted
by `execute` in the reference. -/
structure Quirks where
  shift_quirk : Bool
  memory_increment_by_x : Bool
  memory_leave_iunchanged : Bool
  wrap : Bool
  jump : Bool
  vblank : Bool
  logic : Bool

def Quirks.default : Quirks :=
  { shift_quirk := false, memory_increment_by_x := false,
    memory_leave_iunchanged := false, wrap := false, jump := false,
    vblank := false, logic := false }

/-- `cpu.rs`: the CPU state.  `rngSeed`/`rngPos` model the `ChaCha8Rng` as a
position into the byte stream of a fixed seed. -/
structure Cpu where
  framebuffer : Frame
  program_counter : Nat
  keyboard : Nat → Bool
  memory : Ram
  rngSeed : Nat
  rngPos : Nat
  quirks : Quirks
  registers : Registers
  stack : Stack
  stackpointer : Nat

/-- `Cpu::fetch`: the big-endian word at the program counter. -/
def Cpu.fetch (c : Cpu) : Option Nat := c.memory.get_opcode c.program_counter

/-- `Cpu::get_pressed_key`: lowest pressed key index, if any. -/
def Cpu.get_pressed_key (c : Cpu) : Option Nat :=
  (List.range 16).find? fun i => c.keyboard i

/-- Whether sprite bit `col` (counted from the left) is set:
`sprite >> (7 - sprite_column) & 1 == 1`. -/
def spriteBit (sprite col : Nat) : Bool := (sprite >>> (7 - col)) &&& 1 == 1

/-- One framebuffer XOR write `framebuffer[py][px] ^= b`. -/
def blitPixel (fb : Frame) (py px : Nat) (b : Bool) : Frame :=
  fun r c => if r = py ∧ c = px then xor (fb r c) b else fb r c

/-- The inner `for sprite_column in 0..8` loop of the Display instruction:
`col` is the current column, `k` the number of columns still to do.  For each
in-bounds target the collision test reads the pre-write framebuffer bit and
may set VF to 1, then the bit is XOR-ed in. -/
def displayCols (fb : Frame) (regs : Registers) (sprite sx py col k : Nat) :
    Frame × Registers :=
  match k with
  | 0 => (fb, regs)
  | Nat.succ k =>
    let px := sx + col
    let b := spriteBit sprite col
    if px < DISPLAY_WIDTH ∧ py < DISPLAY_HEIGHT then
      let regs1 := if fb py px && b then regs.set_register 0xF 1 else regs
      displayCols (blitPixel fb py px b) regs1 sprite sx py (col + 1) k
    else
      displayCols fb regs sprite sx py (col + 1) k

/-- The outer `for sprite_row in 0..n` loop of the Display instruction:
`row` is the current row, `k` the rows still to do; when the source byte
address `I + row` leaves RAM the remaining rows are aborted (the early
`return`). -/
def displayRows (fb : Frame) (regs : Registers) (mem : Nat → Nat)
    (spriteStart sx sy row k : Nat) : Frame × Registers :=
  match k with
  | 0 => (fb, regs)
  | Nat.succ k =>
    if RAM_SIZE ≤ spriteStart + row then (fb, regs)
    else
      let sprite := mem (spriteStart + row)
      let p := displayCols fb regs sprite sx (sy + row) 0 8
      displayRows p.1 p.2 mem spriteStart sx sy (row + 1) k

/-- The `for register in 0..=x` loop of `Write0ThroughX`:
`memory.set(vi + register, registers[register])` for `register` in
`[i, i + k)`; the `vi + register` add is a u16 add. -/
def writeRegsLoop (regs : Registers) (m : Ram) (vi i k : Nat) : Option Ram :=
  match k with
  | 0 => some m
  | Nat.succ k =>
    (m.set ((vi + i) % 65536) (regs.get_register i)).bind fun m1 =>
      writeRegsLoop regs m1 vi (i + 1) k

/-- The `for i in 0..=x` loop of `Load0ThroughX`:
`registers[i] = memory.get_byte(vi + i)` for `i` in `[i, i + k)`. -/
def loadRegsLoop (regs : Registers) (m : Ram) (vi i k : Nat) : Option Registers :=
  match k with
  | 0 => some regs
  | Nat.succ k =>
    (m.get_byte ((vi + i) % 65536)).bind fun b =>
      loadRegsLoop (regs.set_register i b) m vi (i + 1) k

/-- `Cpu::execute`.  `stream` is the ChaCha8 byte stream (seed, position ↦
byte).  `none` models a panic. -/
def Cpu.execute (stream : Nat → Nat → Nat) (instruction : Instruction)
    (c : Cpu) : Option Cpu :=
  match instruction with
  | .Noop => some c
  | .ClearScreen => some { c with framebuffer := fun _ _ => false }
  | .ReturnFromSubroutine =>
    let sp := (c.stackpointer + 255) % 256
    (c.stack.get sp).map fun pc =>
      { c with stackpointer := sp, program_counter := pc }
  | .Jump nnn => some { c with program_counter := nnn }
  | .CallSubroutineAtNNN nnn =>
    (c.stack.set c.stackpointer c.program_counter).map fun st =>
      { c with stack := st, stackpointer := (c.stackpointer + 1) % 256,
               program_counter := nnn }
  | .SkipNextInstructionIfXIsKK x kk =>
    let vx := c.registers.get_register x
    if vx = kk then some { c with program_counter := (c.program_counter + 2) % 65536 }
    else some c
  | .SkipNextInstructionIfXIsNotKK x kk =>
    let vx := c.registers.get_register x
    if vx ≠ kk then some { c with program_counter := (c.program_counter + 2) % 65536 }
    else some c
  | .SkipNextInstructionIfXIsY x y =>
    let vx := c.registers.get_register x
    let vy := c.registers.get_register y
    if vx = vy then some { c with program_counter := (c.program_counter + 2) % 65536 }
    else some c
  | .LoadRegisterX x kk => some { c with registers := c.registers.set_register x kk }
  | .AddToRegisterX x kk =>
    let vx := c.registers.get_register x
    some { c with registers := c.registers.set_register x ((vx + kk) % 256) }
  | .LoadRegisterXIntoY x y =>
    let vy := c.registers.get_register y
    some { c with registers := c.registers.set_register x vy }
  | .LoadXOrYinX x y =>
    let vx := c.registers.get_register x
    let vy := c.registers.get_register y
    some { c with registers := c.registers.set_register x (vx ||| vy) }
  | .LoadXAndYInX x y =>
    let vx := c.registers.get_register x
    let vy := c.registers.get_register y
    some { c with registers := c.registers.set_register x (vx &&& vy) }
  | .LoadXXorYInX x y =>
    let vx := c.registers.get_register x
    let vy := c.registers.get_register y
    some { c with registers := c.registers.set_register x (vx ^^^ vy) }
  | .AddYToX x y =>
    let vx := c.registers.get_register x
    let vy := c.registers.get_register y
    let res := (vy + vx) % 256
    let fv : Nat := if 256 ≤ vy + vx then 1 else 0
    some { c with registers := (c.registers.set_register x res).set_register 0xF fv }
  | .SubYFromX x y =>
    let vx := c.registers.get_register x
    let vy := c.registers.get_register y
    let res := (vx + 256 - vy) % 256
    let fv : Nat := if vx < vy then 0 else 1
    some { c with registers := (c.registers.set_register x res).set_register 0xF fv }
  | .ShiftXRight1 x =>
    let vx := c.registers.get_register x
    let vf := vx &&& 1
    some { c with registers := (c.registers.set_register x (vx >>> 1)).set_register 0xF vf }
  | .ShiftXLeft1 x =>
    let vx := c.registers.get_register x
    let fv := (vx >>> 7) &&& 1
    let res := (vx <<< 1) % 256
    some { c with registers := (c.registers.set_register x res).set_register 0xF fv }
  | .SubXFromY x y =>
    let vx := c.registers.get_register x
    let vy := c.registers.get_register y
    let res := (vy + 256 - vx) % 256
    let fv : Nat := if vy < vx then 0 else 1
    some { c with registers := (c.registers.set_register x res).set_register 0xF fv }
  | .SkipNextInstructionIfXIsNotY x y =>
    let vx := c.registers.get_register x
    let vy := c.registers.get_register y
    if vx ≠ vy then some { c with program_counter := (c.program_counter + 2) % 65536 }
    else some c
  | .SetIndexRegister nnn =>
    some { c with registers := c.registers.set_index_register nnn }
  | .JumpToAddressPlusV0 nnn =>
    let v0 := c.registers.get_register 0 &&& 0xf
    some { c with program_counter := (nnn + v0) % 65536 }
  | .SetXToRandom x kk =>
    let random_byte := stream c.rngSeed c.rngPos
    some { c with rngPos := c.rngPos + 1,
                  registers := c.registers.set_register x (random_byte &&& kk) }
  | .Display x y n =>
    let start_x := c.registers.get_register x % DISPLAY_WIDTH
    let start_y := c.registers.get_register y % DISPLAY_HEIGHT
    let sprite_start := c.registers.get_index_register
    let p := displayRows c.framebuffer (c.registers.set_register 0xF 0)
      c.memory.bytes sprite_start start_x start_y 0 n
    some { c with framebuffer := p.1, registers := p.2 }
  | .SkipIfVxNotPressed x =>
    if !c.keyboard x then some { c with program_counter := (c.program_counter + 2) % 65536 }
    else some c
  | .SkipIfVxPressed x =>
    if c.keyboard x then some { c with program_counter := (c.program_counter + 2) % 65536 }
    else some c
  | .WaitForKeyPressed _x =>
    match c.get_pressed_key with
    | none => some { c with program_counter := (c.program_counter + 65534) % 65536 }
    | some _ => some c
  | .SetXToDelayTimer x =>
    let vdt := c.registers.get_delay_timer
    some { c with registers := c.registers.set_register x vdt }
  | .SetDelayTimerToX x =>
    let vx := c.registers.get_register x
    some { c with registers := c.registers.set_delay_timer vx }
  | .SetSoundTimerToX x =>
    let vx := c.registers.get_register x
    some { c with registers := c.registers.set_sound_timer vx }
  | .AddXtoI x =>
    let vx := c.registers.get_register x
    let vi := c.registers.get_index_register
    some { c with registers := c.registers.set_index_register ((vi + vx) % 65536) }
  | .SetIToSpriteX x =>
    let vx := (c.registers.get_register x * 5) % 256
    some { c with registers := c.registers.set_index_register vx }
  | .LoadBCDOfX x =>
    let vx := c.registers.get_register x
    let store_index := c.registers.get_index_register
    (c.memory.set store_index (vx / 100)).bind fun m1 =>
      (m1.set ((store_index + 1) % 65536) (vx % 100 / 10)).bind fun m2 =>
        (m2.set ((store_index + 2) % 65536) (vx % 100 % 10)).map fun m3 =>
          { c with memory := m3 }
  | .Write0ThroughX x =>
    let vi := c.registers.get_index_register
    (writeRegsLoop c.registers c.memory vi 0 (x + 1)).map fun m =>
      { c with memory := m }
  | .Load0ThroughX x =>
    let vi := c.registers.get_index_register
    (loadRegsLoop c.registers c.memory vi 0 (x + 1)).map fun rs =>
      { c with registers := rs }

/-- `Cpu::set_key_state`: `assert!(key <= NUM_KEYS)` then
`keyboard[key] = state`.  Keys ≥ 16 panic (the assert allows 16 but the array
index then panics). -/
def Cpu.set_key_state (c : Cpu) (key : Nat) (state : Bool) : Option Cpu :=
  if key < 16 then
    some { c with keyboard := fun j => if j = key then state else c.keyboard j }
  else none

/-- `Cpu::cycle`: fetch the big-endian word at PC, advance PC by two, decode,
execute, then decrement the sound and delay timers. -/
def Cpu.cycle (stream : Nat → Nat → Nat) (c : Cpu) : Option Cpu :=
  c.fetch.bind fun opcode =>
    let c1 := { c with program_counter := (c.program_counter + 2) % 65536 }
    (Instruction.new opcode).bind fun instruction =>
      (Cpu.execute stream instruction c1).map fun c2 =>
        { c2 with registers := c2.registers.decrement_sound_timer.decrement_delay_timer }

/-- The ROM-loading loop in `Cpu::new`:
`memory.set(ROM_START_ADDRESS + i, rom[i])` for each byte of the buffer. -/
def loadRomLoop (m : Ram) (i : Nat) : List Nat → Option Ram
  | [] => some m
  | b :: rest =>
    (m.set ((ROM_START_ADDRESS + i) % 65536) b).bind fun m1 =>
      loadRomLoop m1 (i + 1) rest

/-- `Cpu::new`: PC at `0x200`, zeroed registers/keyboard/stack, quirks off,
the ChaCha8 generator seeded with the fixed constant 2, font-initialised RAM
with the ROM bytes loaded at `0x200`.  There is no seed parameter. -/
def Cpu.new (rom : List Nat) (framebuffer : Frame) : Option Cpu :=
  (loadRomLoop Ram.with_fonts 0 rom).map fun memory =>
    { framebuffer := framebuffer
      program_counter := ROM_START_ADDRESS
      keyboard := fun _ => false
      memory := memory
      rngSeed := 2
      rngPos := 0
      quirks := Quirks.default
      registers := Registers.default
      stack := Stack.default
      stackpointer := 0 }

/-- A host-driver event: one `cycle()` call or one `set_key_state` call. -/
inductive Ev where
  | cycleEv
  | setKey (key : Nat) (state : Bool)

/-- Driving a CPU by a sequence of host events. -/
def runEvents (stream : Nat → Nat → Nat) : List Ev → Cpu → Option Cpu
  | [], c => some c
  | Ev.cycleEv :: rest, c => (c.cycle stream).bind (runEvents stream rest)
  | Ev.setKey k b :: rest, c => (c.set_key_state k b).bind (runEvents stream rest)

/-- The all-zero byte stream, used for concrete instances. -/
def stream0 : Nat → Nat → Nat := fun _ _ => 0

/-- The all-dark framebuffer. -/
def zeroFrame : Frame := fun _ _ => false

/-- A freshly constructed CPU with an empty ROM: `Cpu::new(&[], fb)`. -/
def baseCpu : Cpu :=
  { framebuffer := zeroFrame
    program_counter := ROM_START_ADDRESS
    keyboard := fun _ => false
    memory := Ram.with_fonts
    rngSeed := 2
    rngPos := 0
    quirks := Quirks.default
    registers := Registers.default
    stack := Stack.default
    stackpointer := 0 }

theorem Registers.get_set_same (r : Registers) (i v : Nat) :
    (r.set_register i v).get_register i = v := by
  simp [get_register, set_register]

theorem Registers.get_set_ne (r : Registers) {i j : Nat} (v : Nat) (h : j ≠ i) :
    (r.set_register i v).get_register j = r.get_register j := by
  simp [get_register, set_register, h]

theorem Registers.set_register_vindex (r : Registers) (i v : Nat) :
    (r.set_register i v).vindex = r.vindex := rfl

/-- C1: one `cycle()` call fetches the big-endian word at PC, advances PC by
2, decodes that word, executes the decoded instruction, and then decrements
each timer by 1 when nonzero (leaving it at 0 otherwise — `t - 1` in ℕ — so
neither timer ever goes below zero, and each decrement leaves the other timer
untouched). -/
theorem cpu_cycle_sequence_spec (stream : Nat → Nat → Nat) (c : Cpu) :
    Cpu.cycle stream c =
      ((c.memory.get_opcode c.program_counter).bind fun opcode =>
        (Instruction.new opcode).bind fun instruction =>
          (Cpu.execute stream instruction
              { c with program_counter := (c.program_counter + 2) % 65536 }).map fun d =>
            { d with registers := d.registers.decrement_sound_timer.decrement_delay_timer })
    ∧ (∀ r : Registers,
        r.decrement_sound_timer.sound_timer = r.sound_timer - 1
        ∧ r.decrement_delay_timer.delay_timer = r.delay_timer - 1
        ∧ r.decrement_sound_timer.delay_timer = r.delay_timer
        ∧ r.decrement_delay_timer.sound_timer = r.sound_timer) := by
  refine ⟨rfl, fun r => ⟨?_, ?_, ?_, ?_⟩⟩ <;>
    simp only [Registers.decrement_sound_timer, Registers.decrement_delay_timer] <;>
    split <;> simp_all

/-- C3: `AddYToX` stores `(a + b) mod 256` into `Vx` and then writes the carry
(`1` exactly when `a + b > 255`) into `VF`; the flag write comes after the
result write, as the register-file equation shows. -/
theorem addYToX_carry_spec (stream : Nat → Nat → Nat) (c : Cpu) (x y a b : Nat)
    (_hx : x < 16) (_hy : y < 16)
    (ha : c.registers.get_register x = a) (hb : c.registers.get_register y = b)
    (_ha8 : a < 256) (_hb8 : b < 256) :
    ∃ d, Cpu.execute stream (Instruction.AddYToX x y) c = some d
      ∧ d.registers = (c.registers.set_register x ((a + b) % 256)).set_register 0xF
          (if 256 ≤ a + b then 1 else 0)
      ∧ d.registers.get_register 0xF = (if 255 < a + b then 1 else 0)
      ∧ (x ≠ 0xF → d.registers.get_register x = (a + b) % 256) := by
  refine ⟨_, rfl, ?_, ?_, ?_⟩
  · rw [ha, hb, Nat.add_comm b a]
  · rw [Registers.get_set_same, ha, hb, Nat.add_comm b a]
    split_ifs <;> omega
  · intro hxf
    rw [Registers.get_set_ne _ _ hxf, Registers.get_set_same, ha, hb, Nat.add_comm b a]

/-- A CPU with `V1 = 200` and `V2 = 60`, for concrete add-with-carry runs. -/
def addCpu : Cpu :=
  { baseCpu with registers := (Registers.default.set_register 1 200).set_register 2 60 }

/-- Witness for `addYToX_carry_spec` at `V1 = 200`, `V2 = 60`. -/
theorem addYToX_carry_spec_witness :
    ∃ d, Cpu.execute stream0 (Instruction.AddYToX 1 2) addCpu = some d
      ∧ d.registers = (addCpu.registers.set_register 1 ((200 + 60) % 256)).set_register 0xF
          (if 256 ≤ 200 + 60 then 1 else 0)
      ∧ d.registers.get_register 0xF = (if 255 < 200 + 60 then 1 else 0)
      ∧ ((1 : Nat) ≠ 0xF → d.registers.get_register 1 = (200 + 60) % 256) :=
  addYToX_carry_spec stream0 addCpu 1 2 200 60 (by decide) (by decide) rfl rfl
    (by decide) (by decide)

/-- C4: `SubYFromX` stores the wrapping difference `Vx - Vy` into `Vx` (equal
to the mathematical `(a - b) mod 256`) and then writes the inverted borrow
flag into `VF`: `1` exactly when `a ≥ b`. -/
theorem subYFromX_no_borrow_spec (stream : Nat → Nat → Nat) (c : Cpu) (x y a b : Nat)
    (_hx : x < 16) (_hy : y < 16)
    (ha : c.registers.get_register x = a) (hb : c.registers.get_register y = b)
    (ha8 : a < 256) (hb8 : b < 256) :
    ∃ d, Cpu.execute stream (Instruction.SubYFromX x y) c = some d
      ∧ d.registers = (c.registers.set_register x ((a + 256 - b) % 256)).set_register 0xF
          (if a < b then 0 else 1)
      ∧ (d.registers.get_register 0xF = 1 ↔ b ≤ a)
      ∧ (x ≠ 0xF → (d.registers.get_register x : Int) = ((a : Int) - (b : Int)) % 256) := by
  refine ⟨_, rfl, ?_, ?_, ?_⟩
  · rw [ha, hb]
  · rw [Registers.get_set_same, ha, hb]
    split_ifs <;> simp <;> omega
  · intro hxf
    rw [Registers.get_set_ne _ _ hxf, Registers.get_set_same, ha, hb]
    have hba : b ≤ a + 256 := by omega
    push_cast [hba]
    omega

/-- A CPU with `V1 = 5` and `V2 = 10`, for concrete borrow-case runs. -/
def subCpu : Cpu :=
  { baseCpu with registers := (Registers.default.set_register 1 5).set_register 2 10 }

/-- Witness for `subYFromX_no_borrow_spec` at `V1 = 5`, `V2 = 10`. -/
theorem subYFromX_no_borrow_spec_witness :
    ∃ d, Cpu.execute stream0 (Instruction.SubYFromX 1 2) subCpu = some d
      ∧ d.registers = (subCpu.registers.set_register 1 ((5 + 256 - 10) % 256)).set_register 0xF
          (if 5 < 10 then 0 else 1)
      ∧ (d.registers.get_register 0xF = 1 ↔ 10 ≤ 5)
      ∧ ((1 : Nat) ≠ 0xF → (d.registers.get_register 1 : Int) = ((5 : Int) - (10 : Int)) % 256) :=
  subYFromX_no_borrow_spec stream0 subCpu 1 2 5 10 (by decide) (by decide) rfl rfl
    (by decide) (by decide)

/-- `v &&& 15` is `v % 16`. -/
theorem land_fifteen_mod (v : Nat) : v &&& 15 = v % 16 := by
  simpa using Nat.and_pow_two_sub_one_eq_mod v 4

/-- A CPU with `V0 = 0x15`, a value whose low nibble differs from the byte. -/
def cexCpu6 : Cpu :=
  { baseCpu with registers := Registers.default.set_register 0 0x15 }

/-- C6 counterexample: with `V0 = 0x15`, `JumpToAddressPlusV0 0x300` sets the
program counter to `0x305` (the code adds only the low nibble of `V0`), not to
`0x300 + 0x15 = 0x315` as the claim states. -/
theorem jumpPlusV0_full_byte_cex :
    (Cpu.execute stream0 (Instruction.JumpToAddressPlusV0 0x300) cexCpu6).map
        (fun d => d.program_counter) = some 0x305
    ∧ cexCpu6.registers.get_register 0 = 0x15
    ∧ (0x305 : Nat) ≠ 0x300 + 0x15 :=
  ⟨rfl, rfl, by decide⟩

/-- C6 amended: `JumpToAddressPlusV0 nnn` sets the program counter to
`nnn` plus the LOW NIBBLE of `V0` (the code masks `V0` with `0xf`). -/
theorem jumpPlusV0_low_nibble_spec (stream : Nat → Nat → Nat) (c : Cpu) (nnn v0 : Nat)
    (h0 : c.registers.get_register 0 = v0) (_hv : v0 < 256) (hn : nnn < 4096) :
    ∃ d, Cpu.execute stream (Instruction.JumpToAddressPlusV0 nnn) c = some d
      ∧ d.program_counter = nnn + v0 % 16 := by
  refine ⟨_, rfl, ?_⟩
  show (nnn + (c.registers.get_register 0 &&& 0xf)) % 65536 = nnn + v0 % 16
  rw [h0, land_fifteen_mod v0, Nat.mod_eq_of_lt (by omega)]

/-- Witness for `jumpPlusV0_low_nibble_spec` at `V0 = 0x15`, `nnn = 0x300`. -/
theorem jumpPlusV0_low_nibble_spec_witness :
    ∃ d, Cpu.execute stream0 (Instruction.JumpToAddressPlusV0 0x300) cexCpu6 = some d
      ∧ d.program_counter = 0x300 + 0x15 % 16 :=
  jumpPlusV0_low_nibble_spec stream0 cexCpu6 0x300 0x15 rfl (by decide) (by decide)

/-- C7: with the stack pointer strictly between 0 and 16, executing
`CallSubroutineAtNNN nnn` and then `ReturnFromSubroutine` restores the program
counter to the value it held when the call executed (in `cycle()` that is the
value right after the call instruction's own PC-advance) and restores the
stack pointer. -/
theorem call_then_return_restores (stream : Nat → Nat → Nat) (c : Cpu) (nnn : Nat)
    (h0 : 0 < c.stackpointer) (h16 : c.stackpointer < 16) :
    ∃ c1 c2, Cpu.execute stream (Instruction.CallSubroutineAtNNN nnn) c = some c1
      ∧ Cpu.execute stream Instruction.ReturnFromSubroutine c1 = some c2
      ∧ c2.program_counter = c.program_counter
      ∧ c2.stackpointer = c.stackpointer := by
  have e2 : ((c.stackpointer + 1) % 256 + 255) % 256 = c.stackpointer := by omega
  have hc1 : Cpu.execute stream (Instruction.CallSubroutineAtNNN nnn) c
      = some { c with
          stack := { values := fun j =>
            if j = c.stackpointer then c.program_counter else c.stack.values j },
          stackpointer := (c.stackpointer + 1) % 256,
          program_counter := nnn } := by
    show (c.stack.set c.stackpointer c.program_counter).map _ = _
    unfold Stack.set
    rw [if_pos h16]
    rfl
  have hc2 : Cpu.execute stream Instruction.ReturnFromSubroutine
      { c with
        stack := { values := fun j =>
          if j = c.stackpointer then c.program_counter else c.stack.values j },
        stackpointer := (c.stackpointer + 1) % 256,
        program_counter := nnn }
      = some { c with
          stack := { values := fun j =>
            if j = c.stackpointer then c.program_counter else c.stack.values j },
          stackpointer := c.stackpointer,
          program_counter := c.program_counter } := by
    show (Stack.get _ (((c.stackpointer + 1) % 256 + 255) % 256)).map _ = _
    rw [e2]
    unfold Stack.get
    rw [if_pos h16]
    simp
  exact ⟨_, _, hc1, hc2, rfl, rfl⟩

/-- A CPU one call deep: stack pointer 1. -/
def depthOneCpu : Cpu := { baseCpu with stackpointer := 1 }

/-- Witness for `call_then_return_restores` at stack pointer 1. -/
theorem call_then_return_restores_witness :
    ∃ c1 c2, Cpu.execute stream0 (Instruction.CallSubroutineAtNNN 0x123) depthOneCpu = some c1
      ∧ Cpu.execute stream0 Instruction.ReturnFromSubroutine c1 = some c2
      ∧ c2.program_counter = depthOneCpu.program_counter
      ∧ c2.stackpointer = depthOneCpu.stackpointer :=
  call_then_return_restores stream0 depthOneCpu 0x123 (by decide) (by decide)

/-- A CPU with `V0 = 52`, the smallest value whose `u8` product with 5 wraps. -/
def cexCpu9 : Cpu :=
  { baseCpu with registers := Registers.default.set_register 0 52 }

/-- C9 counterexample: with `Vx = 52`, `SetIToSpriteX` leaves `I = 4`
(the `u8` product `52 * 5` wraps modulo 256), not `5 * 52 = 260` as the claim
states. -/
theorem setIToSpriteX_overflow_cex :
    (Cpu.execute stream0 (Instruction.SetIToSpriteX 0) cexCpu9).map
        (fun d => d.registers.get_index_register) = some 4
    ∧ cexCpu9.registers.get_register 0 = 52
    ∧ (4 : Nat) ≠ 5 * 52 :=
  ⟨rfl, rfl, by decide⟩

/-- C9 amended: `SetIToSpriteX` sets the index register to `(5 * Vx) mod 256`
(the multiplication is performed in `u8` and wraps before the widening cast). -/
theorem setIToSpriteX_mod256_spec (stream : Nat → Nat → Nat) (c : Cpu) (x a : Nat)
    (ha : c.registers.get_register x = a) (_ha8 : a < 256) :
    ∃ d, Cpu.execute stream (Instruction.SetIToSpriteX x) c = some d
      ∧ d.registers.get_index_register = 5 * a % 256 := by
  refine ⟨_, rfl, ?_⟩
  show (c.registers.get_register x * 5) % 256 = 5 * a % 256
  rw [ha, Nat.mul_comm]

/-- Witness for `setIToSpriteX_mod256_spec` at `V0 = 52`. -/
theorem setIToSpriteX_mod256_spec_witness :
    ∃ d, Cpu.execute stream0 (Instruction.SetIToSpriteX 0) cexCpu9 = some d
      ∧ d.registers.get_index_register = 5 * 52 % 256 :=
  setIToSpriteX_mod256_spec stream0 cexCpu9 0 52 rfl (by decide)

/-- A CPU with key 3 pressed and `V1 = 0`. -/
def keyCpu : Cpu := { baseCpu with keyboard := fun k => k == 3 }

/-- C5: evaluation at the failing input.  With key 3 pressed,
`WaitForKeyPressed` with destination register 1 leaves the CPU state
completely unchanged: the pressed key's index 3 is NOT stored into `V1`
(the `Some(x) => {}` arm of the source does nothing); only the "no key:
rewind PC by 2" half of the claim matches the code. -/
theorem waitForKey_does_not_store_key :
    Cpu.get_pressed_key keyCpu = some 3
    ∧ Cpu.execute stream0 (Instruction.WaitForKeyPressed 1) keyCpu = some keyCpu
    ∧ keyCpu.registers.get_register 1 = 0
    ∧ (Cpu.execute stream0 (Instruction.WaitForKeyPressed 1) baseCpu).map
        (fun d => d.program_counter) = some ((baseCpu.program_counter + 65534) % 65536) :=
  ⟨rfl, rfl, rfl, rfl⟩

/-- A CPU whose stack is full: stack pointer 16. -/
def fullStackCpu : Cpu := { baseCpu with stackpointer := 16 }

/-- A CPU whose ROM starts with the unmapped opcode `0x8008`. -/
def badOpcodeCpu : Cpu :=
  { baseCpu with memory :=
      { bytes := fun i => if i = 0x200 then 0x80 else if i = 0x201 then 0x08 else 0 } }

/-- C2: evaluation at the failing inputs.  Decode failures in groups 8/E/F,
stack underflow on return, stack overflow on call, and a RAM write at the
4096-byte bound are all modelled panics (`none`) — in the source they are
`panic!` calls, a `u8` subtraction driving an out-of-bounds array index, and
slice-index panics, which terminate the process.  `cycle()` returns `()` and
the crate defines no error type, so none of these conditions is surfaced as a
recoverable typed result; a fetched `0x8008` aborts the whole cycle step. -/
theorem faults_panic_not_typed_errors :
    Instruction.new 0x8008 = none
    ∧ Instruction.new 0xE055 = none
    ∧ Instruction.new 0xF002 = none
    ∧ Cpu.execute stream0 Instruction.ReturnFromSubroutine baseCpu = none
    ∧ Cpu.execute stream0 (Instruction.CallSubroutineAtNNN 0x300) fullStackCpu = none
    ∧ Ram.set Ram.with_fonts 4096 0 = none
    ∧ Cpu.cycle stream0 badOpcodeCpu = none :=
  ⟨rfl, rfl, rfl, rfl, rfl, rfl, rfl⟩

/-- C10: `Cpu::new` takes only the ROM bytes and a framebuffer — no seed
parameter — and pins the PRNG to seed 2 at position 0, so any two CPUs
constructed from the same ROM are equal, and driving them with the same
sequence of `cycle()` / `set_key_state()` events (under any ChaCha8 byte
stream, hence with identical `SetXToRandom` outputs) yields identical states
— program counter, registers, memory and framebuffer included — at every
step, since every prefix of `events` is itself such a sequence. -/
theorem cpu_fixed_seed_deterministic (stream : Nat → Nat → Nat) (rom : List Nat)
    (fb : Frame) (events : List Ev) (c1 c2 : Cpu)
    (h1 : Cpu.new rom fb = some c1) (h2 : Cpu.new rom fb = some c2) :
    c1.rngSeed = 2 ∧ c1.rngPos = 0 ∧ c1 = c2
      ∧ runEvents stream events c1 = runEvents stream events c2 := by
  have hcc : c1 = c2 := by
    rw [h1] at h2
    exact Option.some.inj h2
  obtain ⟨m, _, hfc⟩ := Option.map_eq_some'.mp h1
  refine ⟨?_, ?_, hcc, by rw [hcc]⟩
  · rw [← hfc]
  · rw [← hfc]

/-- Witness for `cpu_fixed_seed_deterministic`: the empty ROM construction
(which evaluates to `baseCpu`) driven by a key press and a cycle. -/
theorem cpu_fixed_seed_deterministic_witness :
    baseCpu.rngSeed = 2 ∧ baseCpu.rngPos = 0 ∧ baseCpu = baseCpu
      ∧ runEvents stream0 [Ev.setKey 3 true, Ev.cycleEv] baseCpu
        = runEvents stream0 [Ev.setKey 3 true, Ev.cycleEv] baseCpu :=
  cpu_fixed_seed_deterministic stream0 [] zeroFrame [Ev.setKey 3 true, Ev.cycleEv]
    baseCpu baseCpu rfl rfl

/-- The XOR mask that the inner Display column loop applies to framebuffer
cell `(r, cc)`: a function of the sprite byte and the start coordinates only,
independent of the framebuffer contents. -/
def maskCols (sprite sx py col k r cc : Nat) : Bool :=
  match k with
  | 0 => false
  | Nat.succ k =>
    xor
      (if (sx + col < DISPLAY_WIDTH ∧ py < DISPLAY_HEIGHT) ∧ r = py ∧ cc = sx + col
       then spriteBit sprite col else false)
      (maskCols sprite sx py (col + 1) k r cc)

/-- The XOR mask that the full Display row loop applies to framebuffer cell
`(r, cc)`: a function of sprite memory, the index register and the start
coordinates only. -/
def maskRows (mem : Nat → Nat) (spriteStart sx sy row k r cc : Nat) : Bool :=
  match k with
  | 0 => false
  | Nat.succ k =>
    if RAM_SIZE ≤ spriteStart + row then false
    else
      xor (maskCols (mem (spriteStart + row)) sx (sy + row) 0 8 r cc)
          (maskRows mem spriteStart sx sy (row + 1) k r cc)

/-- The column loop changes the framebuffer exactly by XOR-ing in `maskCols`,
whatever the register file is. -/
theorem displayCols_fst (sprite sx py : Nat) :
    ∀ (k col : Nat) (fb : Frame) (regs : Registers) (r cc : Nat),
      (displayCols fb regs sprite sx py col k).1 r cc
        = xor (fb r cc) (maskCols sprite sx py col k r cc) := by
  intro k
  induction k with
  | zero =>
    intro col fb regs r cc
    simp [displayCols, maskCols]
  | succ k ih =>
    intro col fb regs r cc
    simp only [displayCols, maskCols]
    by_cases hb : sx + col < DISPLAY_WIDTH ∧ py < DISPLAY_HEIGHT
    · rw [if_pos hb, ih]
      by_cases hp : r = py ∧ cc = sx + col
      · have hfb : blitPixel fb py (sx + col) (spriteBit sprite col) r cc
            = xor (fb r cc) (spriteBit sprite col) := by
          unfold blitPixel
          rw [if_pos ⟨hp.1, hp.2⟩, hp.1, hp.2]
        rw [hfb, if_pos ⟨hb, hp⟩, Bool.xor_assoc]
      · have hfb : blitPixel fb py (sx + col) (spriteBit sprite col) r cc = fb r cc := by
          unfold blitPixel
          rw [if_neg hp]
        rw [hfb, if_neg (fun h => hp h.2), Bool.false_xor]
    · rw [if_neg hb, ih, if_neg (fun h => hb h.1), Bool.false_xor]

/-- The column loop writes no register other than `VF`. -/
theorem displayCols_snd_get (sprite sx py : Nat) :
    ∀ (k col : Nat) (fb : Frame) (regs : Registers) (j : Nat), j ≠ 0xF →
      ((displayCols fb regs sprite sx py col k).2).get_register j
        = regs.get_register j := by
  intro k
  induction k with
  | zero =>
    intro col fb regs j _
    rfl
  | succ k ih =>
    intro col fb regs j hj
    simp only [displayCols]
    by_cases hb : sx + col < DISPLAY_WIDTH ∧ py < DISPLAY_HEIGHT
    · rw [if_pos hb, ih _ _ _ _ hj]
      split
      · exact Registers.get_set_ne _ _ hj
      · rfl
    · rw [if_neg hb, ih _ _ _ _ hj]

/-- The column loop leaves the index register untouched. -/
theorem displayCols_snd_index (sprite sx py : Nat) :
    ∀ (k col : Nat) (fb : Frame) (regs : Registers),
      ((displayCols fb regs sprite sx py col k).2).get_index_register
        = regs.get_index_register := by
  intro k
  induction k with
  | zero =>
    intro col fb regs
    rfl
  | succ k ih =>
    intro col fb regs
    simp only [displayCols]
    by_cases hb : sx + col < DISPLAY_WIDTH ∧ py < DISPLAY_HEIGHT
    · rw [if_pos hb, ih]
      split <;> rfl
    · rw [if_neg hb, ih]

/-- The row loop changes the framebuffer exactly by XOR-ing in `maskRows`,
whatever the register file is. -/
theorem displayRows_fst (mem : Nat → Nat) (spriteStart sx sy : Nat) :
    ∀ (k row : Nat) (fb : Frame) (regs : Registers) (r cc : Nat),
      (displayRows fb regs mem spriteStart sx sy row k).1 r cc
        = xor (fb r cc) (maskRows mem spriteStart sx sy row k r cc) := by
  intro k
  induction k with
  | zero =>
    intro row fb regs r cc
    simp [displayRows, maskRows]
  | succ k ih =>
    intro row fb regs r cc
    simp only [displayRows, maskRows]
    by_cases habort : RAM_SIZE ≤ spriteStart + row
    · rw [if_pos habort, if_pos habort, Bool.xor_false]
    · rw [if_neg habort, if_neg habort, ih, displayCols_fst, Bool.xor_assoc]

/-- The row loop writes no register other than `VF`. -/
theorem displayRows_snd_get (mem : Nat → Nat) (spriteStart sx sy : Nat) :
    ∀ (k row : Nat) (fb : Frame) (regs : Registers) (j : Nat), j ≠ 0xF →
      ((displayRows fb regs mem spriteStart sx sy row k).2).get_register j
        = regs.get_register j := by
  intro k
  induction k with
  | zero =>
    intro row fb regs j _
    rfl
  | succ k ih =>
    intro row fb regs j hj
    simp only [displayRows]
    by_cases habort : RAM_SIZE ≤ spriteStart + row
    · rw [if_pos habort]
    · rw [if_neg habort, ih _ _ _ _ hj, displayCols_snd_get _ _ _ _ _ _ _ _ hj]

/-- The row loop leaves the index register untouched. -/
theorem displayRows_snd_index (mem : Nat → Nat) (spriteStart sx sy : Nat) :
    ∀ (k row : Nat) (fb : Frame) (regs : Registers),
      ((displayRows fb regs mem spriteStart sx sy row k).2).get_index_register
        = regs.get_index_register := by
  intro k
  induction k with
  | zero =>
    intro row fb regs
    rfl
  | succ k ih =>
    intro row fb regs
    simp only [displayRows]
    by_cases habort : RAM_SIZE ≤ spriteStart + row
    · rw [if_pos habort]
    · rw [if_neg habort, ih, displayCols_snd_index]

/-- C8 amended: provided neither coordinate register is `VF` (the draw
instruction itself clears and may set `VF`, so using register 15 as a
coordinate changes the second draw's origin), executing `Display x y n` twice
in succession with identical operands restores every framebuffer pixel to its
pre-draw state: the blit is a pure XOR mask, applied twice. -/
theorem display_twice_restores_fb (stream : Nat → Nat → Nat) (c : Cpu) (x y n : Nat)
    (_hx : x < 16) (_hy : y < 16) (hx15 : x ≠ 0xF) (hy15 : y ≠ 0xF) :
    ∃ c1 c2, Cpu.execute stream (Instruction.Display x y n) c = some c1
      ∧ Cpu.execute stream (Instruction.Display x y n) c1 = some c2
      ∧ ∀ r cc, c2.framebuffer r cc = c.framebuffer r cc := by
  refine ⟨_, _, rfl, rfl, ?_⟩
  intro r cc
  have hgx : ((displayRows c.framebuffer (c.registers.set_register 0xF 0)
        c.memory.bytes c.registers.get_index_register
        (c.registers.get_register x % DISPLAY_WIDTH)
        (c.registers.get_register y % DISPLAY_HEIGHT) 0 n).2).get_register x
      = c.registers.get_register x := by
    rw [displayRows_snd_get _ _ _ _ _ _ _ _ _ hx15, Registers.get_set_ne _ _ hx15]
  have hgy : ((displayRows c.framebuffer (c.registers.set_register 0xF 0)
        c.memory.bytes c.registers.get_index_register
        (c.registers.get_register x % DISPLAY_WIDTH)
        (c.registers.get_register y % DISPLAY_HEIGHT) 0 n).2).get_register y
      = c.registers.get_register y := by
    rw [displayRows_snd_get _ _ _ _ _ _ _ _ _ hy15, Registers.get_set_ne _ _ hy15]
  have hvi : ((displayRows c.framebuffer (c.registers.set_register 0xF 0)
        c.memory.bytes c.registers.get_index_register
        (c.registers.get_register x % DISPLAY_WIDTH)
        (c.registers.get_register y % DISPLAY_HEIGHT) 0 n).2).get_index_register
      = c.registers.get_index_register := by
    rw [displayRows_snd_index]
    rfl
  show (displayRows _ _ _ _ _ _ 0 n).1 r cc = c.framebuffer r cc
  dsimp only
  rw [hgx, hgy, hvi, displayRows_fst, displayRows_fst, Bool.xor_assoc, Bool.xor_self,
    Bool.xor_false]

/-- A CPU whose `VF` register — usable as a Display coordinate register —
holds 3, with the index register at 0 (the font glyph `0xF0 ...`). -/
def cexCpu8 : Cpu :=
  { baseCpu with registers := Registers.default.set_register 0xF 3 }

/-- C8 counterexample: drawing sprite `D F 0 1` (coordinate register x = VF)
twice does NOT restore the framebuffer.  The first draw starts at column
`VF = 3` and clears `VF` to 0, so the second draw starts at column 0; pixel
`(0, 4)` is touched by the first draw, starts dark, and is still lit after
both draws. -/
theorem display_twice_not_involutive_cex :
    ((Cpu.execute stream0 (Instruction.Display 0xF 0 1) cexCpu8).bind
        (Cpu.execute stream0 (Instruction.Display 0xF 0 1))).map
        (fun d => d.framebuffer 0 4) = some true
    ∧ cexCpu8.framebuffer 0 4 = false :=
  ⟨rfl, rfl⟩

/-- A CPU with `V1 = V2 = 2` and the index register at 0, drawing font data. -/
def drawCpu : Cpu :=
  { baseCpu with registers := (Registers.default.set_register 1 2).set_register 2 2 }

/-- Witness for `display_twice_restores_fb` at `x = 1`, `y = 2`, `n = 1`. -/
theorem display_twice_restores_fb_witness :
    ∃ c1 c2, Cpu.execute stream0 (Instruction.Display 1 2 1) drawCpu = some c1
      ∧ Cpu.execute stream0 (Instruction.Display 1 2 1) c1 = some c2
      ∧ ∀ r cc, c2.framebuffer r cc = drawCpu.framebuffer r cc :=
  display_twice_restores_fb stream0 drawCpu 1 2 1 (by decide) (by decide)
    (by decide) (by decide)
